import Mathlib

/-!
Shallow embedding of the weather/climate-normals pipelines of the
repository (a Next.js app).  JavaScript numbers are modelled as
rationals (`ℚ`); `Math.min`/`Math.max` over an empty spread, which
yield `Infinity` / `-Infinity` in JavaScript, are modelled with
`WithTop ℚ` / `WithBot ℚ`.  Nullable fields are `Option`s; a thrown
JavaScript exception is the `Except.error` branch carrying the
exception's `message` string.
-/

namespace Spec2Proof

/-- A JavaScript exception, reduced to its `message` field. -/
structure JsError where
  message : String
deriving DecidableEq, Repr

/-- The `DailyNormal` record type of `lib/normalsClient.ts`.  Numeric
fields are `number | null` in the source, embedded as `Option ℚ`. -/
structure DailyNormal where
  station : String
  date : String
  meanTempF : Option ℚ
  minTempF : Option ℚ
  maxTempF : Option ℚ
  precipIn : Option ℚ
deriving DecidableEq, Repr

/-- Digit list to natural number, most significant first. -/
def digitsToNat (ds : List Char) : ℕ :=
  ds.foldl (fun n c => n * 10 + (c.toNat - 48)) 0

/-- JavaScript `parseFloat` on the finite-number grammar: skip leading
whitespace, optional sign, decimal digits with optional fraction and
exponent; `none` models the `NaN` result when no digit can be read.
(The special `Infinity` literal, irrelevant to CSV weather data, is not
modelled since finite JS numbers are embedded as `ℚ`.) -/
def jsParseFloat (s : String) : Option ℚ :=
  let cs := s.toList.dropWhile Char.isWhitespace
  let sign : ℚ × List Char :=
    match cs with
    | '-' :: rest => (-1, rest)
    | '+' :: rest => (1, rest)
    | _ => (1, cs)
  let intDigits := sign.2.takeWhile Char.isDigit
  let afterInt := sign.2.drop intDigits.length
  let frac : List Char × List Char :=
    match afterInt with
    | '.' :: rest => (rest.takeWhile Char.isDigit, rest.drop (rest.takeWhile Char.isDigit).length)
    | _ => ([], afterInt)
  if intDigits.isEmpty && frac.1.isEmpty then
    none
  else
    let mant : ℚ :=
      sign.1 * ((digitsToNat intDigits : ℚ) + (digitsToNat frac.1 : ℚ) / (10 : ℚ) ^ frac.1.length)
    let expVal : ℤ :=
      match frac.2 with
      | c :: rest =>
        if c = 'e' || c = 'E' then
          let esign : ℤ × List Char :=
            match rest with
            | '-' :: r => (-1, r)
            | '+' :: r => (1, r)
            | _ => (1, rest)
          let eds := esign.2.takeWhile Char.isDigit
          if eds.isEmpty then 0 else esign.1 * (digitsToNat eds : ℤ)
        else 0
      | [] => 0
    some (mant * (10 : ℚ) ^ expVal)

/-- Function `parseNumber` from `lib/normalsClient.ts`: `parseFloat` then map
`NaN` to `null`.  The argument is `Option String` because destructuring
a short CSV row passes `undefined`, which `parseFloat` coerces to the
non-numeric string `"undefined"`, hence `NaN`, hence `null`. -/
def parseNumber (value : Option String) : Option ℚ :=
  match value with
  | none => none
  | some s => jsParseFloat s

/-- JavaScript `String.prototype.split` with a single-character
separator, at the character-list level.  Splitting the empty list gives
one empty piece, as `"".split(",")` gives `[""]`. -/
def splitOnChar (sep : Char) : List Char → List (List Char)
  | [] => [[]]
  | c :: rest =>
    if c = sep then [] :: splitOnChar sep rest
    else
      match splitOnChar sep rest with
      | [] => [[c]]
      | l :: ls => (c :: l) :: ls

/-- Drop one trailing carriage return, as the regex `\r?\n` does for a
line that was terminated by `\r\n`. -/
def stripCR (l : List Char) : List Char :=
  if l.getLast? = some '\r' then l.dropLast else l

/-- JavaScript `csvText.split(/\r?\n/)`: split at every `\n`, removing a
`\r` immediately before it; the final piece keeps any bare `\r`. -/
def splitLines (s : String) : List String :=
  match (splitOnChar '\n' s.toList).reverse with
  | [] => []
  | last :: revInit =>
    (revInit.reverse.map (fun cs => String.mk (stripCR cs))) ++ [String.mk last]

/-- JavaScript `String.prototype.trim` (ASCII whitespace suffices for
the CSV bodies at hand). -/
def jsTrim (s : String) : String :=
  String.mk (((s.toList.dropWhile Char.isWhitespace).reverse.dropWhile Char.isWhitespace).reverse)

/-- JavaScript `String.prototype.toLowerCase`. -/
def jsToLower (s : String) : String :=
  String.mk (s.toList.map Char.toLower)

/-- Substring containment, for `lines[0].toLowerCase().includes("date")`. -/
def strIncludes (hay needle : String) : Bool :=
  decide (needle.toList <:+: hay.toList)

/-- One line of `parseCsv`'s `dataLines.map`: destructure the first five
comma-separated cells as `[date, mean, max, min, precip]` (missing cells
are `undefined`, so their numeric parse is `null`) and build the record
with `meanTempF := mean`, `maxTempF := max`, `minTempF := min`. -/
def parseCsvLine (station line : String) : DailyNormal :=
  let cells := (splitOnChar ',' line.toList).map (fun cs => String.mk cs)
  { station := station
    date := cells.headD ""
    meanTempF := parseNumber cells[1]?
    maxTempF := parseNumber cells[2]?
    minTempF := parseNumber cells[3]?
    precipIn := parseNumber cells[4]? }

/-- Message of the `TypeError` thrown by `lines[0].toLowerCase()` when
`lines` is empty. -/
def toLowerCaseOfUndefined : JsError :=
  { message := "Cannot read properties of undefined (reading 'toLowerCase')" }

/-- Function `parseCsv` from `lib/normalsClient.ts`: split on line breaks, drop
blank lines, skip the first line when its lowercasing contains `"date"`,
parse each remaining line.  When every line is blank, the source
evaluates `lines[0].toLowerCase()` on `undefined` and throws. -/
def parseCsv (station csvText : String) : Except JsError (List DailyNormal) :=
  let lines := (splitLines csvText).filter (fun l => jsTrim l ≠ "")
  match lines with
  | [] => .error toLowerCaseOfUndefined
  | l0 :: rest =>
    let dataLines := if strIncludes (jsToLower l0) "date" then rest else l0 :: rest
    .ok (dataLines.map (parseCsvLine station))

/-- Truthiness of a `string | undefined` value: `undefined` and the
empty string are falsy. -/
def jsTruthyStr (o : Option String) : Bool :=
  match o with
  | none => false
  | some s => s ≠ ""

/-- Lexicographic `≤` on character lists, the order JavaScript's `<=`
and `>=` impose on strings (code-unit comparison; identical to
code-point comparison on the ASCII date strings at hand). -/
def charListLe : List Char → List Char → Bool
  | [], _ => true
  | _ :: _, [] => false
  | a :: as, b :: bs => if a < b then true else if b < a then false else charListLe as bs

/-- JavaScript string comparison `a <= b`. -/
def jsStrLe (a b : String) : Bool :=
  charListLe a.toList b.toList

/-- Function `filterNormalsByDate` from `lib/normalsClient.ts`: keep records with
`r.date >= startDate` when `startDate` is truthy, then records with
`r.date <= endDate` when `endDate` is truthy. -/
def filterNormalsByDate (records : List DailyNormal)
    (startDate endDate : Option String) : List DailyNormal :=
  let filtered := records
  let filtered :=
    if jsTruthyStr startDate then
      filtered.filter (fun r => jsStrLe (startDate.getD "") r.date)
    else filtered
  let filtered :=
    if jsTruthyStr endDate then
      filtered.filter (fun r => jsStrLe r.date (endDate.getD ""))
    else filtered
  filtered

/-- Result record of `summarizeNormals`.  `some ⊤` in `minOfMinTempF`
models the JavaScript `Infinity` produced by `Math.min()` of an empty
spread; `some ⊥` in `maxOfMaxTempF` models `-Infinity` from `Math.max()`. -/
structure NormalsSummary where
  count : ℕ
  meanOfMeanTempF : Option ℚ
  minOfMinTempF : Option (WithTop ℚ)
  maxOfMaxTempF : Option (WithBot ℚ)
deriving DecidableEq, Repr

/-- JavaScript `Math.min(...values)`: fold binary `min` starting from `Infinity`. -/
def jsMathMin (values : List ℚ) : WithTop ℚ :=
  values.foldl (fun a (v : ℚ) => min a (v : WithTop ℚ)) ⊤

/-- JavaScript `Math.max(...values)`: fold binary `max` starting from `-Infinity`. -/
def jsMathMax (values : List ℚ) : WithBot ℚ :=
  values.foldl (fun a (v : ℚ) => max a (v : WithBot ℚ)) ⊥

/-- Function `summarizeNormals` from `lib/normalsClient.ts`.  `temps` collects the
non-null `meanTempF` values; when it is empty the function returns the
all-null summary with `count` 0, otherwise it returns `records.length`
together with the mean of `temps` and the min/max over the non-null
`minTempF`/`maxTempF` values. -/
def summarizeNormals (records : List DailyNormal) : NormalsSummary :=
  let temps := (records.map (fun r => r.meanTempF)).filterMap id
  if temps.length = 0 then
    { count := 0
      meanOfMeanTempF := none
      minOfMinTempF := none
      maxOfMaxTempF := none }
  else
    { count := records.length
      meanOfMeanTempF := some ((temps.foldl (· + ·) 0) / (temps.length : ℚ))
      minOfMinTempF := some (jsMathMin ((records.map (fun r => r.minTempF)).filterMap id))
      maxOfMaxTempF := some (jsMathMax ((records.map (fun r => r.maxTempF)).filterMap id)) }

/-- The upstream NOAA response as seen by `fetchNormalsForStation`'s
callback: Node's `res.statusCode` (a `number | undefined`, hence the
`Option`) and the fully buffered body text. -/
structure UpstreamResponse where
  statusCode : Option ℕ
  body : String
deriving DecidableEq, Repr

/-- Truthiness of a `number | undefined` value: `undefined` and `0` are
falsy. -/
def jsTruthyNum (o : Option ℕ) : Bool :=
  match o with
  | none => false
  | some n => n ≠ 0

/-- Function `fetchNormalsForStation` from `lib/normalsClient.ts`, as a function
of the upstream response it awaits: when `res.statusCode` is truthy and
`>= 400` the promise is rejected with an error naming the status code
and the station; otherwise the buffered body is handed to `parseCsv`,
whose own exception (if any) also rejects the promise. -/
def fetchNormalsForStation (station : String) (resp : UpstreamResponse) :
    Except JsError (List DailyNormal) :=
  if jsTruthyNum resp.statusCode && decide (400 ≤ resp.statusCode.getD 0) then
    .error { message :=
      "HTTP " ++ toString (resp.statusCode.getD 0) ++ " from NOAA for station " ++ station }
  else
    parseCsv station resp.body

/-- One value of Next.js's `req.query` map: absent, a single string, or
an array of strings (a repeated query parameter). -/
inductive QueryVal where
  | missing
  | str (s : String)
  | strs (l : List String)
deriving DecidableEq, Repr

/-- The normalisation `typeof v === "string" ? v : undefined` the
handler applies to `startDate` and `endDate`. -/
def QueryVal.asString : QueryVal → Option String
  | .str s => some s
  | _ => none

/-- The query parameters read by `pages/api/normals.ts`. -/
structure ApiQuery where
  station : QueryVal
  startDate : QueryVal
  endDate : QueryVal
deriving DecidableEq, Repr

/-- The `NormalsResponse` payload type of `pages/api/normals.ts`. -/
structure NormalsResponse where
  station : String
  startDate : Option String
  endDate : Option String
  records : List DailyNormal
  summary : NormalsSummary
deriving DecidableEq, Repr

/-- What the handler sends: `res.status(...).json(...)` with either the
success payload or an `{ error }` object. -/
inductive ApiSend where
  | payload (status : ℕ) (resp : NormalsResponse)
  | errorPayload (status : ℕ) (error : String)
deriving DecidableEq, Repr

/-- The handler's `catch` branch: `err.message || "Failed to fetch
climate normals"` (an empty message string is falsy). -/
def catchMessage (e : JsError) : String :=
  if e.message = "" then "Failed to fetch climate normals" else e.message

/-- The request handler of `pages/api/normals.ts`, as a function of the
parsed query and of the outcome of the awaited
`fetchNormalsForStation` call (the only effect inside the `try`).
The source guard `!station || typeof station !== "string"` sends a 400
exactly when `station` is not a single nonempty string, which the
match below reproduces; otherwise the handler filters, summarizes and
sends a 200 payload, and a rejected fetch reaches the `catch` branch
as a 500 with the error's message or the generic fallback. -/
def handler (q : ApiQuery) (fetchResult : Except JsError (List DailyNormal)) : ApiSend :=
  match q.station with
  | .str s =>
    if s = "" then
      .errorPayload 400 "Missing or invalid 'station' parameter"
    else
      match fetchResult with
      | .error e => .errorPayload 500 (catchMessage e)
      | .ok allRecords =>
        let sd := q.startDate.asString
        let ed := q.endDate.asString
        let filtered := filterNormalsByDate allRecords sd ed
        let summary := summarizeNormals filtered
        .payload 200
          { station := s
            startDate := sd
            endDate := ed
            records := filtered
            summary := summary }
  | _ => .errorPayload 400 "Missing or invalid 'station' parameter"

/-- One entry of the OpenWeatherMap 5-day/3-hour forecast list, reduced
to the fields the component reads: `dt_txt`, `main.temp`, `pop`. -/
structure ForecastEntry where
  dt_txt : String
  temp : ℚ
  pop : ℚ
deriving DecidableEq, Repr

/-- The date part `entry.dt_txt.split(" ")[0]` of the timestamp. -/
def entryDate (e : ForecastEntry) : String :=
  String.mk ((splitOnChar ' ' e.dt_txt.toList).headD [])

/-- Appending a key to the running key list unless already present:
what `if (!daily[date]) daily[date] = []` does to the insertion order
of the `daily` object's (non-index-like) string keys. -/
def insertKey (acc : List String) (d : String) : List String :=
  if d ∈ acc then acc else acc ++ [d]

/-- JavaScript `Object.keys(daily)`: the distinct dates of the entries in
first-appearance order. -/
def forecastDates (entries : List ForecastEntry) : List String :=
  (entries.map entryDate).foldl insertKey []

/-- A rendered per-day forecast row: `{ date, avgTemp, pop }` with
`avgTemp` already formatted by `toFixed(1)`. -/
structure DailyForecastSummary where
  date : String
  avgTemp : String
  pop : ℤ
deriving DecidableEq, Repr

/-- The floor of a rational, written so that the kernel can evaluate
it (the divisor is positive, so Euclidean division is the floor);
`ratFloor_eq_floor` below identifies it with `Int.floor`. -/
def ratFloor (q : ℚ) : ℤ :=
  q.num / q.den

/-- JavaScript `Number.prototype.toFixed(1)`: strip the sign, round the magnitude
to the nearest tenth (ties away from zero, i.e. to the larger digit
string), and print with one digit after the point. -/
def jsToFixed1 (x : ℚ) : String :=
  let sgn := if x < 0 then "-" else ""
  let n : ℕ := (ratFloor (10 * |x| + 1 / 2)).toNat
  sgn ++ toString (n / 10) ++ "." ++ toString (n % 10)

/-- JavaScript `Math.round`: floor of `x + 1/2` (half rounds toward `+∞`). -/
def jsMathRound (x : ℚ) : ℤ :=
  ratFloor (x + 1 / 2)

/-- The body of the `selectedDates.map` callback in the component's
`fetchWeather`: `daily[date]` holds the entries whose date is `date`,
in encounter order (pushes preserve order), i.e. a filter of the list;
the callback averages their temperatures and precipitation
probabilities. -/
def summarizeForecastDate (entries : List ForecastEntry) (date : String) :
    DailyForecastSummary :=
  let group := entries.filter (fun e => entryDate e = date)
  let temps := group.map (fun e => e.temp)
  let pops := group.map (fun e => e.pop)
  let avgTemp := temps.foldl (· + ·) 0 / (temps.length : ℚ)
  let avgPop := pops.foldl (· + ·) 0 / (pops.length : ℚ)
  { date := date
    avgTemp := jsToFixed1 avgTemp
    pop := jsMathRound (avgPop * 100) }

/-- The grouping/averaging core of the component's `fetchWeather`
(between a successful `resp.json()` and `setResults`): group entries
by date, take the first `days` distinct dates in encounter order, and
summarize each selected date. -/
def fetchWeatherSummaries (entries : List ForecastEntry) (days : ℕ) :
    List DailyForecastSummary :=
  ((forecastDates entries).take days).map (summarizeForecastDate entries)

/-! ### Spec-side definitions

These restate contracts in the spec's words, to be compared with the
source-derived functions above. -/

/-- Spec 4.3's predicate: the record's date is `≥ start` (when given)
and `≤ end` (when given); an absent bound imposes no constraint. -/
def dateInRange (startDate endDate : Option String) (r : DailyNormal) : Bool :=
  (match startDate with
   | none => true
   | some sd => jsStrLe sd r.date) &&
  (match endDate with
   | none => true
   | some ed => jsStrLe r.date ed)

/-- Arithmetic mean of a list of rationals, as the spec states it. -/
def specMean (l : List ℚ) : ℚ :=
  l.sum / (l.length : ℚ)

/-- The range predicate that actually matches the code: a given start
bound always filters (an empty start keeps everything anyway, since
every string is `≥ ""`), while an empty-string end bound is skipped by
the truthiness guard and so imposes no constraint. -/
def dateInRangeTruthy (startDate endDate : Option String) (r : DailyNormal) : Bool :=
  (match startDate with
   | none => true
   | some sd => jsStrLe sd r.date) &&
  (match endDate with
   | none => true
   | some ed => ed = "" || jsStrLe r.date ed)

/-- Decidable equality for `Except`, for evaluating parse results. -/
instance exceptDecEq {ε α : Type} [DecidableEq ε] [DecidableEq α] :
    DecidableEq (Except ε α) := fun a b =>
  match a, b with
  | .ok x, .ok y =>
    if h : x = y then .isTrue (congrArg Except.ok h)
    else .isFalse (fun hh => h (Except.ok.inj hh))
  | .error x, .error y =>
    if h : x = y then .isTrue (congrArg Except.error h)
    else .isFalse (fun hh => h (Except.error.inj hh))
  | .ok _, .error _ => .isFalse (fun hh => Except.noConfusion hh)
  | .error _, .ok _ => .isFalse (fun hh => Except.noConfusion hh)

/-- Function `ratFloor` is the integer floor. -/
theorem ratFloor_eq_floor (q : ℚ) : ratFloor q = ⌊q⌋ :=
  Rat.floor_def.symm

/-! ### Lemmas about the range filter -/

theorem jsStrLe_empty_left (t : String) : jsStrLe "" t = true := rfl

/-- Function `filterNormalsByDate` is one pass of `List.filter` with the
truthiness-aware range predicate. -/
theorem filterNormalsByDate_eq_filter (records : List DailyNormal) (s e : Option String) :
    filterNormalsByDate records s e = records.filter (dateInRangeTruthy s e) := by
  have step : filterNormalsByDate records s e =
      records.filter (fun r =>
        (if jsTruthyStr s then jsStrLe (s.getD "") r.date else true) &&
        (if jsTruthyStr e then jsStrLe r.date (e.getD "") else true)) := by
    simp only [filterNormalsByDate]
    cases hc1 : jsTruthyStr s <;> cases hc2 : jsTruthyStr e <;>
      simp [hc1, hc2, List.filter_filter, Bool.and_comm]
  rw [step]
  refine List.filter_congr (fun r _ => ?_)
  rcases s with _ | sd <;> rcases e with _ | ed
  · simp [dateInRangeTruthy, jsTruthyStr]
  · by_cases hed : ed = ""
    · subst hed; simp [dateInRangeTruthy, jsTruthyStr]
    · simp [dateInRangeTruthy, jsTruthyStr, hed]
  · by_cases hsd : sd = ""
    · subst hsd; simp [dateInRangeTruthy, jsTruthyStr, jsStrLe_empty_left]
    · simp [dateInRangeTruthy, jsTruthyStr, hsd]
  · by_cases hsd : sd = "" <;> by_cases hed : ed = ""
    · subst hsd; subst hed
      simp [dateInRangeTruthy, jsTruthyStr, jsStrLe_empty_left]
    · subst hsd
      simp [dateInRangeTruthy, jsTruthyStr, jsStrLe_empty_left, hed]
    · subst hed
      simp [dateInRangeTruthy, jsTruthyStr, hsd]
    · simp [dateInRangeTruthy, jsTruthyStr, hsd, hed]

/-- C5, counterexample: with an empty-string end bound — a given date
string — the code keeps a record whose date is not `≤ ""`, while the
claim's range predicate would drop it. -/
theorem filterNormalsByDate_emptyEnd_cex :
    filterNormalsByDate
        [{ station := "GHCND:USW00023174", date := "20200101",
           meanTempF := none, minTempF := none, maxTempF := none, precipIn := none }]
        none (some "") ≠
      List.filter (dateInRange none (some ""))
        [{ station := "GHCND:USW00023174", date := "20200101",
           meanTempF := none, minTempF := none, maxTempF := none, precipIn := none }] := by
  decide

/-- C5 (amended): `filterNormalsByDate` returns exactly the subsequence
of records whose date is string-`≥` a given start bound and
string-`≤` a given nonempty end bound, an absent bound — or an
empty-string end bound, which the truthiness guard skips — imposing no
constraint on that side; it preserves input order (the result is a
sublist) and has no side effects. -/
theorem filterNormalsByDate_spec (records : List DailyNormal) (s e : Option String) :
    filterNormalsByDate records s e = records.filter (dateInRangeTruthy s e) ∧
      (filterNormalsByDate records s e).Sublist records := by
  refine ⟨filterNormalsByDate_eq_filter records s e, ?_⟩
  rw [filterNormalsByDate_eq_filter records s e]
  exact List.filter_sublist records

/-- C9: `filterNormalsByDate` is idempotent — filtering an already
filtered list with the same bounds returns it unchanged. -/
theorem filterNormalsByDate_idem (records : List DailyNormal) (s e : Option String) :
    filterNormalsByDate (filterNormalsByDate records s e) s e =
      filterNormalsByDate records s e := by
  rw [filterNormalsByDate_eq_filter records s e,
    filterNormalsByDate_eq_filter (records.filter (dateInRangeTruthy s e)) s e,
    List.filter_filter]
  simp

/-- C10: an empty-string start or end bound is falsy, so the code treats
it exactly like an absent bound. -/
theorem filterNormalsByDate_emptyBound (records : List DailyNormal) (s e : Option String) :
    filterNormalsByDate records (some "") e = filterNormalsByDate records none e ∧
      filterNormalsByDate records s (some "") = filterNormalsByDate records s none := by
  constructor
  · simp [filterNormalsByDate, jsTruthyStr]
  · simp [filterNormalsByDate, jsTruthyStr]

/-! ### Lemmas about the summarizer -/

theorem foldl_min_withTop (l : List ℚ) (a : WithTop ℚ) :
    l.foldl (fun x (v : ℚ) => min x (v : WithTop ℚ)) a = min a l.minimum := by
  induction l generalizing a with
  | nil =>
    rw [List.foldl_nil, List.minimum_nil, min_eq_left le_top]
  | cons q t ih =>
    rw [List.foldl_cons, ih, List.minimum_cons, ← min_assoc]

theorem foldl_max_withBot (l : List ℚ) (a : WithBot ℚ) :
    l.foldl (fun x (v : ℚ) => max x (v : WithBot ℚ)) a = max a l.maximum := by
  induction l generalizing a with
  | nil =>
    rw [List.foldl_nil, List.maximum_nil, max_eq_left bot_le]
  | cons q t ih =>
    rw [List.foldl_cons, ih, List.maximum_cons, ← max_assoc]

/-- The `Math.min` spread over a list computes its `List.minimum`
(`⊤` — JavaScript `Infinity` — on the empty list). -/
theorem jsMathMin_eq_minimum (l : List ℚ) : jsMathMin l = l.minimum := by
  rw [jsMathMin, foldl_min_withTop]
  apply min_eq_right
  exact le_top

/-- The `Math.max` spread over a list computes its `List.maximum`
(`⊥` — JavaScript `-Infinity` — on the empty list). -/
theorem jsMathMax_eq_maximum (l : List ℚ) : jsMathMax l = l.maximum := by
  rw [jsMathMax, foldl_max_withBot]
  apply max_eq_right
  exact bot_le

/-- C1, counterexample: one record whose temperature fields are all
null.  The claim predicts count 1 (the input length, and in particular
a non-zero count); `summarizeNormals` takes its early return and
reports count 0. -/
theorem summarizeNormals_count_cex :
    (summarizeNormals
      [{ station := "GHCND:USW00023174", date := "20200102",
         meanTempF := none, minTempF := none, maxTempF := none, precipIn := none }]).count ≠
      List.length
        [({ station := "GHCND:USW00023174", date := "20200102",
            meanTempF := none, minTempF := none, maxTempF := none, precipIn := none } : DailyNormal)] := by
  decide

/-- C1 (amended): `summarizeNormals` returns `count = records.length`
only when some record has a non-null `meanTempF`; when no record does
(in particular on empty input, but also on a non-empty all-null input)
it returns count 0 with every aggregate field null. -/
theorem summarizeNormals_count (records : List DailyNormal) :
    ((records.map (fun r => r.meanTempF)).filterMap id ≠ [] →
      (summarizeNormals records).count = records.length) ∧
    ((records.map (fun r => r.meanTempF)).filterMap id = [] →
      summarizeNormals records =
        { count := 0, meanOfMeanTempF := none, minOfMinTempF := none,
          maxOfMaxTempF := none }) := by
  constructor <;> intro h
  · have hlen : ¬ ((records.map (fun r => r.meanTempF)).filterMap id).length = 0 := by
      simpa [List.length_eq_zero] using h
    simp only [summarizeNormals]
    rw [if_neg hlen]
  · have hlen : ((records.map (fun r => r.meanTempF)).filterMap id).length = 0 := by
      rw [h]; rfl
    simp only [summarizeNormals]
    rw [if_pos hlen]

/-- Witness for C1 (amended): a singleton input with a present
`meanTempF` has count 1, and the empty input yields the all-null
summary. -/
theorem summarizeNormals_count_witness :
    (summarizeNormals
      [{ station := "GHCND:USW00023174", date := "20200103",
         meanTempF := some 50, minTempF := none, maxTempF := none, precipIn := none }]).count = 1 ∧
    summarizeNormals ([] : List DailyNormal) =
      { count := 0, meanOfMeanTempF := none, minOfMinTempF := none,
        maxOfMaxTempF := none } :=
  ⟨(summarizeNormals_count
      [{ station := "GHCND:USW00023174", date := "20200103",
         meanTempF := some 50, minTempF := none, maxTempF := none, precipIn := none }]).1
      (by decide),
   (summarizeNormals_count []).2 (by decide)⟩

/-- C2, counterexample: with a present `meanTempF` but no non-null
`minTempF`, the claim predicts `minOfMinTempF = null`, yet the code
computes `Math.min()` of an empty spread, i.e. `Infinity` (`some ⊤`);
conversely with all `meanTempF` null the claim predicts the minimum `5`
of the present `minTempF` values, yet the early return yields null. -/
theorem summarizeNormals_minmax_cex :
    (summarizeNormals
      [{ station := "GHCND:USW00023174", date := "20200104",
         meanTempF := some 50, minTempF := none, maxTempF := none,
         precipIn := none }]).minOfMinTempF = some ⊤ ∧
    (summarizeNormals
      [{ station := "GHCND:USW00023174", date := "20200104",
         meanTempF := some 50, minTempF := none, maxTempF := none,
         precipIn := none }]).minOfMinTempF ≠ none ∧
    (summarizeNormals
      [{ station := "GHCND:USW00023174", date := "20200105",
         meanTempF := none, minTempF := some 5, maxTempF := some 9,
         precipIn := none }]).minOfMinTempF = none := by
  decide

/-- C2 (amended): when no record has a non-null `meanTempF` both
`minOfMinTempF` and `maxOfMaxTempF` are null regardless of the
`minTempF`/`maxTempF` fields; otherwise `minOfMinTempF` is the minimum
of the non-null `minTempF` values (`⊤`, i.e. JavaScript `Infinity`,
when there are none) and `maxOfMaxTempF` the maximum of the non-null
`maxTempF` values (`⊥`, i.e. `-Infinity`, when there are none). -/
theorem summarizeNormals_min_max (records : List DailyNormal) :
    ((records.map (fun r => r.meanTempF)).filterMap id = [] →
      (summarizeNormals records).minOfMinTempF = none ∧
      (summarizeNormals records).maxOfMaxTempF = none) ∧
    ((records.map (fun r => r.meanTempF)).filterMap id ≠ [] →
      (summarizeNormals records).minOfMinTempF =
        some ((records.map (fun r => r.minTempF)).filterMap id).minimum ∧
      (summarizeNormals records).maxOfMaxTempF =
        some ((records.map (fun r => r.maxTempF)).filterMap id).maximum) := by
  constructor <;> intro h
  · have hlen : ((records.map (fun r => r.meanTempF)).filterMap id).length = 0 := by
      rw [h]; rfl
    simp only [summarizeNormals]
    rw [if_pos hlen]
    exact ⟨rfl, rfl⟩
  · have hlen : ¬ ((records.map (fun r => r.meanTempF)).filterMap id).length = 0 := by
      simpa [List.length_eq_zero] using h
    simp only [summarizeNormals]
    rw [if_neg hlen]
    exact ⟨by rw [jsMathMin_eq_minimum], by rw [jsMathMax_eq_maximum]⟩

/-- Witness for C2 (amended): both branches at singleton inputs. -/
theorem summarizeNormals_min_max_witness :
    (summarizeNormals
      [{ station := "GHCND:USW00023174", date := "20200106",
         meanTempF := none, minTempF := some 5, maxTempF := some 9,
         precipIn := none }]).minOfMinTempF = none ∧
    (summarizeNormals
      [{ station := "GHCND:USW00023174", date := "20200107",
         meanTempF := some 50, minTempF := some 5, maxTempF := some 9,
         precipIn := none }]).minOfMinTempF = some (List.minimum [(5 : ℚ)]) :=
  ⟨((summarizeNormals_min_max
      [{ station := "GHCND:USW00023174", date := "20200106",
         meanTempF := none, minTempF := some 5, maxTempF := some 9,
         precipIn := none }]).1 (by decide)).1,
   ((summarizeNormals_min_max
      [{ station := "GHCND:USW00023174", date := "20200107",
         meanTempF := some 50, minTempF := some 5, maxTempF := some 9,
         precipIn := none }]).2 (by decide)).1⟩

/-- C3: `parseCsv` is not total — on an empty body (and likewise on an
all-blank body) every line is dropped by the blank filter and the
header check dereferences `lines[0]`, which is `undefined`, so the
source throws a `TypeError` instead of returning.  On a body with a
header line and a data row containing a non-numeric cell it does
return, mapping that cell to null. -/
theorem parseCsv_throws_on_blank_body :
    parseCsv "GHCND:USW00023174" "" = .error toLowerCaseOfUndefined ∧
    parseCsv "GHCND:USW00023174" " \n\t\n" = .error toLowerCaseOfUndefined ∧
    parseCsv "GHCND:USW00023174" "DATE,mean,max,min,precip\n20200101,aa,bb,cc" =
      .ok [{ station := "GHCND:USW00023174", date := "20200101",
             meanTempF := none, maxTempF := none, minTempF := none,
             precipIn := none }] := by
  refine ⟨rfl, rfl, ?_⟩
  decide

/-- C6: a status `≥ 400` rejects with the status code and station id in
the message, as claimed; but the rejection is not *exactly* at status
`≥ 400` — a 200 response with an empty body also fails, because
`parseCsv` throws on it. -/
theorem fetchNormalsForStation_failure_modes :
    fetchNormalsForStation "GHCND:USW00023174" { statusCode := some 404, body := "" } =
      .error { message := "HTTP 404 from NOAA for station GHCND:USW00023174" } ∧
    fetchNormalsForStation "GHCND:USW00023174" { statusCode := some 200, body := "" } =
      .error toLowerCaseOfUndefined := by
  constructor
  · rfl
  · rfl

/-- C4: the normals request handler sends a 400 with a descriptive
message when `station` is missing or not a single string, for every
fetch outcome (hence without depending on any upstream request); with a
nonempty string station it sends a 200 payload echoing the station and
the string-typed date bounds, with the fetched records filtered and
then summarized over the filtered list; and a rejected pipeline sends a
500 carrying the error's message, or the generic fallback when that
message is empty. -/
theorem handler_contract :
    (∀ (q : ApiQuery) (fr : Except JsError (List DailyNormal)),
        (q.station = .missing ∨ ∃ l, q.station = .strs l) →
        handler q fr = .errorPayload 400 "Missing or invalid 'station' parameter") ∧
    (∀ (q : ApiQuery) (s : String) (records : List DailyNormal),
        q.station = .str s → s ≠ "" →
        handler q (.ok records) =
          .payload 200
            { station := s
              startDate := q.startDate.asString
              endDate := q.endDate.asString
              records := filterNormalsByDate records q.startDate.asString q.endDate.asString
              summary := summarizeNormals
                (filterNormalsByDate records q.startDate.asString q.endDate.asString) }) ∧
    (∀ (q : ApiQuery) (s : String) (e : JsError),
        q.station = .str s → s ≠ "" →
        handler q (.error e) =
          .errorPayload 500
            (if e.message = "" then "Failed to fetch climate normals" else e.message)) := by
  refine ⟨?_, ?_, ?_⟩
  · rintro q fr (h | ⟨l, h⟩) <;> simp [handler, h]
  · intro q s records hq hs
    simp [handler, hq, hs]
  · intro q s e hq hs
    simp [handler, hq, hs, catchMessage]

/-- Witness for C4: the three branches at concrete queries. -/
theorem handler_contract_witness :
    handler { station := .missing, startDate := .missing, endDate := .missing }
        (.ok []) = .errorPayload 400 "Missing or invalid 'station' parameter" ∧
    handler { station := .str "GHCND:USW00023174", startDate := .str "20200101",
              endDate := .missing }
        (.ok []) =
      .payload 200
        { station := "GHCND:USW00023174", startDate := some "20200101", endDate := none
          records := filterNormalsByDate [] (some "20200101") none
          summary := summarizeNormals (filterNormalsByDate [] (some "20200101") none) } ∧
    handler { station := .str "GHCND:USW00023174", startDate := .missing,
              endDate := .missing }
        (.error { message := "" }) =
      .errorPayload 500 "Failed to fetch climate normals" :=
  ⟨handler_contract.1
      { station := .missing, startDate := .missing, endDate := .missing }
      (.ok []) (Or.inl rfl),
   handler_contract.2.1
      { station := .str "GHCND:USW00023174", startDate := .str "20200101",
        endDate := .missing }
      "GHCND:USW00023174" [] rfl (by decide),
   (handler_contract.2.2
      { station := .str "GHCND:USW00023174", startDate := .missing,
        endDate := .missing }
      "GHCND:USW00023174" { message := "" } rfl (by decide)).trans (by decide)⟩

/-! ### Lemmas about the forecast aggregator -/

theorem foldl_insertKey_nodup (l : List String) :
    ∀ acc : List String, acc.Nodup → (l.foldl insertKey acc).Nodup := by
  induction l with
  | nil => intro acc h; exact h
  | cons d t ih =>
    intro acc h
    rw [List.foldl_cons]
    apply ih
    rw [insertKey]
    split
    · exact h
    · next hd => simp [List.nodup_append, h, hd]

theorem mem_foldl_insertKey (l : List String) :
    ∀ (acc : List String) (d : String), d ∈ l.foldl insertKey acc ↔ d ∈ acc ∨ d ∈ l := by
  induction l with
  | nil => intro acc d; simp
  | cons x t ih =>
    intro acc d
    rw [List.foldl_cons, ih]
    rw [insertKey]
    split
    · next hx =>
      constructor
      · rintro (h | h)
        · exact Or.inl h
        · exact Or.inr (List.mem_cons_of_mem _ h)
      · rintro (h | h)
        · exact Or.inl h
        · rcases List.mem_cons.mp h with rfl | h
          · exact Or.inl hx
          · exact Or.inr h
    · next hx =>
      simp only [List.mem_append, List.mem_singleton, List.mem_cons]
      tauto

/-- The `daily` object's key list has no duplicate dates. -/
theorem forecastDates_nodup (entries : List ForecastEntry) : (forecastDates entries).Nodup :=
  foldl_insertKey_nodup _ [] List.nodup_nil

/-- The key list holds exactly the dates occurring among the entries. -/
theorem mem_forecastDates (entries : List ForecastEntry) (d : String) :
    d ∈ forecastDates entries ↔ d ∈ entries.map entryDate := by
  rw [forecastDates, mem_foldl_insertKey]
  simp

/-- The key list's length is the number of distinct entry dates. -/
theorem forecastDates_length (entries : List ForecastEntry) :
    (forecastDates entries).length = (entries.map entryDate).toFinset.card := by
  have h1 : (forecastDates entries).toFinset = (entries.map entryDate).toFinset := by
    ext d
    simp [List.mem_toFinset, mem_forecastDates]
  rw [← List.toFinset_card_of_nodup (forecastDates_nodup entries), h1]

/-- C7, counterexample: a response whose entries arrive latest date
first.  The aggregator keeps encounter order, so the summaries are not
ordered earliest date first (`jsStrLe` comparison of the two output
dates fails). -/
theorem fetchWeatherSummaries_order_cex :
    ((fetchWeatherSummaries
        [{ dt_txt := "2024-01-02 00:00:00", temp := 70, pop := 0 },
         { dt_txt := "2024-01-01 00:00:00", temp := 70, pop := 0 }] 2).map
      (fun s => s.date)) = ["2024-01-02", "2024-01-01"] ∧
    jsStrLe "2024-01-02" "2024-01-01" = false := by
  exact ⟨rfl, rfl⟩

/-- C7 (amended): for a day count between 1 and 5 the aggregator emits
one summary per selected date — pairwise-distinct dates, as many as the
minimum of the requested count and the number of distinct dates in the
response — in order of first appearance in the response (which is
earliest-first only when the response is date-sorted). -/
theorem fetchWeatherSummaries_shape (entries : List ForecastEntry) (days : ℕ)
    (h1 : 1 ≤ days) (h5 : days ≤ 5) :
    (fetchWeatherSummaries entries days).length =
      min days (entries.map entryDate).toFinset.card ∧
    (fetchWeatherSummaries entries days).map (fun s => s.date) =
      (forecastDates entries).take days ∧
    ((fetchWeatherSummaries entries days).map (fun s => s.date)).Nodup := by
  have hmap : (fetchWeatherSummaries entries days).map (fun s => s.date) =
      (forecastDates entries).take days := by
    rw [fetchWeatherSummaries, List.map_map]
    have hcomp : ((fun s : DailyForecastSummary => s.date) ∘ summarizeForecastDate entries) =
        fun d => d := by
      funext d
      rfl
    rw [hcomp]
    exact List.map_id _
  refine ⟨?_, hmap, ?_⟩
  · rw [fetchWeatherSummaries, List.length_map, List.length_take, forecastDates_length]
  · rw [hmap]
    exact (forecastDates_nodup entries).sublist (List.take_sublist _ _)

/-- Witness for C7 (amended): the spec's own test case — entries across
exactly 3 distinct dates with day count 5 yield exactly 3 summaries. -/
theorem fetchWeatherSummaries_shape_witness :
    (1 : ℕ) ≤ 5 ∧
    (fetchWeatherSummaries
      [{ dt_txt := "2024-01-01 00:00:00", temp := 70, pop := 0 },
       { dt_txt := "2024-01-01 03:00:00", temp := 71, pop := 0 },
       { dt_txt := "2024-01-02 00:00:00", temp := 72, pop := 0 },
       { dt_txt := "2024-01-03 00:00:00", temp := 73, pop := 0 }] 5).length = 3 :=
  ⟨by decide,
   ((fetchWeatherSummaries_shape
      [{ dt_txt := "2024-01-01 00:00:00", temp := 70, pop := 0 },
       { dt_txt := "2024-01-01 03:00:00", temp := 71, pop := 0 },
       { dt_txt := "2024-01-02 00:00:00", temp := 72, pop := 0 },
       { dt_txt := "2024-01-03 00:00:00", temp := 73, pop := 0 }] 5
      (by decide) (by decide)).1).trans (by decide)⟩

/-- C8: every emitted summary renders the arithmetic mean of its date's
temperatures via `toFixed(1)` and the mean of its date's precipitation
probabilities times 100 via `Math.round`; concretely, temperatures
`[70, 72, 74]` average to `"72.0"` and probabilities `[0.1, 0.3]` give
`pop = 20`. -/
theorem fetchWeatherSummaries_means :
    (∀ (entries : List ForecastEntry) (days : ℕ) (s : DailyForecastSummary),
        s ∈ fetchWeatherSummaries entries days →
        s.avgTemp = jsToFixed1 (specMean
          ((entries.filter (fun e => entryDate e = s.date)).map (fun e => e.temp))) ∧
        s.pop = jsMathRound (specMean
          ((entries.filter (fun e => entryDate e = s.date)).map (fun e => e.pop)) * 100)) ∧
    jsToFixed1 (specMean [70, 72, 74]) = "72.0" ∧
    jsMathRound (specMean [1 / 10, 3 / 10] * 100) = 20 := by
  refine ⟨?_, ?_, ?_⟩
  · intro entries days s hs
    rw [fetchWeatherSummaries] at hs
    rcases List.mem_map.mp hs with ⟨d, hd, rfl⟩
    constructor
    · simp only [summarizeForecastDate]
      congr 1
      rw [specMean, List.sum_eq_foldl]
    · simp only [summarizeForecastDate]
      congr 1
      rw [specMean, List.sum_eq_foldl]
  · have hmean : specMean [(70 : ℚ), 72, 74] = 72 := by
      rw [specMean]
      norm_num
    rw [hmean]
    simp only [jsToFixed1]
    rw [show ratFloor (10 * |(72 : ℚ)| + 1 / 2) = 720 from by rw [ratFloor_eq_floor]; norm_num,
      if_neg (by norm_num : ¬ (72 : ℚ) < 0)]
    decide
  · have hmean : specMean [(1 : ℚ) / 10, 3 / 10] * 100 = 20 := by
      rw [specMean]
      norm_num
    rw [hmean]
    simp only [jsMathRound]
    rw [ratFloor_eq_floor]
    norm_num

/-- A two-entry, one-date forecast response used to witness C8. -/
def sampleForecastEntries : List ForecastEntry :=
  [{ dt_txt := "2024-03-01 00:00:00", temp := 70, pop := 1 / 10 },
   { dt_txt := "2024-03-01 03:00:00", temp := 74, pop := 3 / 10 }]

/-- Witness for C8: the aggregated summary of `sampleForecastEntries`
(temperatures 70 and 74, probabilities 0.1 and 0.3) renders mean 72 as
`"72.0"` and probability mean 0.2 as `pop = 20`. -/
theorem fetchWeatherSummaries_means_witness :
    (summarizeForecastDate sampleForecastEntries "2024-03-01").avgTemp = "72.0" ∧
    (summarizeForecastDate sampleForecastEntries "2024-03-01").pop = 20 := by
  have hmem : summarizeForecastDate sampleForecastEntries "2024-03-01" ∈
      fetchWeatherSummaries sampleForecastEntries 5 :=
    List.mem_map_of_mem _ (by decide)
  have h := fetchWeatherSummaries_means.1 sampleForecastEntries 5 _ hmem
  have hdate : (summarizeForecastDate sampleForecastEntries "2024-03-01").date =
      "2024-03-01" := rfl
  have hfil : sampleForecastEntries.filter (fun e => entryDate e = "2024-03-01") =
      sampleForecastEntries :=
    List.filter_eq_self.mpr (by
      intro a ha
      rcases List.mem_cons.mp ha with rfl | ha
      · decide
      · rcases List.mem_cons.mp ha with rfl | ha
        · decide
        · exact absurd ha (List.not_mem_nil a))
  constructor
  · rw [h.1]
    simp only [hdate]
    rw [hfil, show sampleForecastEntries.map (fun e => e.temp) = [(70 : ℚ), 74] from rfl]
    have hmean : specMean [(70 : ℚ), 74] = 72 := by
      rw [specMean]
      norm_num
    rw [hmean]
    simp only [jsToFixed1]
    rw [show ratFloor (10 * |(72 : ℚ)| + 1 / 2) = 720 from by rw [ratFloor_eq_floor]; norm_num,
      if_neg (by norm_num : ¬ (72 : ℚ) < 0)]
    decide
  · rw [h.2]
    simp only [hdate]
    rw [hfil, show sampleForecastEntries.map (fun e => e.pop) = [(1 : ℚ) / 10, 3 / 10] from rfl]
    have hmean : specMean [(1 : ℚ) / 10, 3 / 10] * 100 = 20 := by
      rw [specMean]
      norm_num
    rw [hmean]
    simp only [jsMathRound]
    rw [ratFloor_eq_floor]
    norm_num

end Spec2Proof
